import Mathlib

/-!
# whatsapp-bot: message handler and completion client

A shallow embedding of `src/whatsapp-bot.js`.

* JavaScript strings are Lean `String`s.  The only string tests of the source are
  `startsWith` with the ASCII needles `'!'` and `'image/'`, strict equality and
  concatenation; they are expressed on the character lists.
* A thrown value is a `JsError`, an `Error` object observed through its `message`.
* The external collaborators (media download, `pdf-parse`, `fetch`, `message.reply`)
  are the fields of a `World`: every one of them may succeed or fail.
* An `async` function becomes a function returning a `Run`: the effects performed, in
  order, and either the returned value or the thrown error (a rejected promise).
* `pdfContexts`, the process-wide `Map`, is passed explicitly.
-/

namespace WhatsappBot

/-! ## Values -/

/-- A thrown JavaScript `Error`, observed through its `message` property. -/
structure JsError where
  message : String
  deriving DecidableEq, Repr

/-- A JavaScript value as produced by `response.json()`, together with `undefined`, the
result of reading a property that is not there.  A number is kept as a rational: the
source only tests numbers for truthiness. -/
inductive JsValue where
  | undefined : JsValue
  | null : JsValue
  | bool (b : Bool) : JsValue
  | num (q : ℚ) : JsValue
  | str (s : String) : JsValue
  | arr (items : List JsValue) : JsValue
  | obj (fields : List (String × JsValue)) : JsValue

/-- JavaScript truthiness (`ToBoolean`): `undefined`, `null`, `false`, `0` and `''` are
falsy, every array and every object is truthy. -/
def JsValue.truthy : JsValue → Bool
  | .undefined => false
  | .null => false
  | .bool b => b
  | .num q => decide (q ≠ 0)
  | .str s => decide (s ≠ "")
  | .arr _ => true
  | .obj _ => true

/-- The name JavaScript prints for a value without properties. -/
def JsValue.nullishName : JsValue → String
  | .null => "null"
  | _ => "undefined"

/-- The `TypeError` of reading property `key` of `undefined` or `null`. -/
def propertyTypeError (v : JsValue) (key : String) : JsError :=
  ⟨"Cannot read properties of " ++ v.nullishName ++ " (reading '" ++ key ++ "')"⟩

/-- First binding of `key` in the fields of an object. -/
def lookupField (key : String) : List (String × JsValue) → JsValue
  | [] => .undefined
  | (k, v) :: rest => if k = key then v else lookupField key rest

/-- Property read `v.key` for a named property that no prototype defines (the source
reads `choices`, `message` and `content`): it throws on `undefined` and `null`, finds
the field of an object, and is `undefined` on every other value. -/
def JsValue.getField (v : JsValue) (key : String) : Except JsError JsValue :=
  match v with
  | .undefined => .error (propertyTypeError v key)
  | .null => .error (propertyTypeError v key)
  | .obj fields => .ok (lookupField key fields)
  | _ => .ok .undefined

/-- Indexed read `v[0]`: the first element of an array, the first character of a
non-empty string (a one-character string, truthy, without a `message` property), the
field `"0"` of an object. -/
def JsValue.getIndex0 (v : JsValue) : Except JsError JsValue :=
  match v with
  | .undefined => .error (propertyTypeError v "0")
  | .null => .error (propertyTypeError v "0")
  | .arr [] => .ok .undefined
  | .arr (x :: _) => .ok x
  | .str s =>
    match s.data with
    | [] => .ok .undefined
    | c :: _ => .ok (.str (String.mk [c]))
  | .obj fields => .ok (lookupField "0" fields)
  | _ => .ok .undefined

/-- Method `s.startsWith(p)`. -/
def startsWith (s p : String) : Bool :=
  p.data.isPrefixOf s.data

/-! ## The context store: `pdfContexts = new Map()` -/

/-- The entries of the `Map`, in insertion order. -/
abbrev Store := List (String × String)

/-- The empty map, `new Map()`. -/
def Store.empty : Store := []

/-- Method `pdfContexts.get(key)`; `none` is `undefined`. -/
def Store.get : Store → String → Option String
  | [], _ => none
  | (k, v) :: rest, key => if k = key then some v else Store.get rest key

/-- Method `pdfContexts.set(key, value)`: the value of an existing key is replaced in place,
a new key is appended. -/
def Store.set : Store → String → String → Store
  | [], key, value => [(key, value)]
  | (k, v) :: rest, key, value =>
    if k = key then (k, value) :: rest else (k, v) :: Store.set rest key value

/-- Method `pdfContexts.clear()`. -/
def Store.clear (_ : Store) : Store := []

/-! ## Requests, responses and the external collaborators -/

/-- The `content` of the single user turn of a completion request. -/
inductive MessageContent where
  /-- Plain text: `content: prompt`. -/
  | text (prompt : String) : MessageContent
  /-- Two parts: `content: [{type: 'text', text}, {type: 'image_url', image_url: {url}}]`. -/
  | parts (text : String) (imageUrl : String) : MessageContent
  deriving DecidableEq, Repr

/-- The arguments of one `fetch` call; `body` is kept before `JSON.stringify`. -/
structure Request where
  url : String
  method : String
  authorization : String
  referer : String
  title : String
  contentType : String
  model : String
  role : String
  content : MessageContent
  temperature : ℚ
  top_p : Nat
  repetition_penalty : Nat
  deriving DecidableEq

/-- What the source reads of a `fetch` response: `ok`, `status`, and the outcomes of
`await response.text()` and `await response.json()`. -/
structure Response where
  ok : Bool
  status : Nat
  text : Except JsError String
  json : Except JsError JsValue

/-- The `MessageMedia` returned by `message.downloadMedia()`. -/
structure Media where
  mimetype : String
  data : String
  deriving DecidableEq, Repr

/-- An inbound message: `message.from`, `message.body`, `message.hasMedia`. -/
structure Message where
  «from» : String
  body : String
  hasMedia : Bool
  deriving DecidableEq, Repr

/-- A `Buffer`: a sequence of bytes. -/
abbrev Buffer := List Nat

/-- Everything outside the program, for the handling of one message. -/
structure World where
  /-- The value of `process.env.OPENROUTER_API_KEY`. -/
  OPENROUTER_API_KEY : String
  /-- Outcome of `await message.downloadMedia()`; `none` is `undefined` (media no longer there). -/
  downloadMedia : Except JsError (Option Media)
  /-- The bytes `Buffer.from(data, 'base64')`. -/
  bufferFrom : String → Buffer
  /-- Outcome of `(await pdf(buffer)).text`. -/
  pdf : Buffer → Except JsError String
  /-- Outcome of `await fetch(url, options)`. -/
  fetch : Request → Except JsError Response
  /-- Outcome of `await message.reply(content)`, for the call preceded by `n` reply calls. -/
  reply : Nat → JsValue → Except JsError Unit

/-- An observable effect of the program. -/
inductive Effect where
  | consoleLog (line : String) : Effect
  /-- A call `console.error(label, detail)`; an error is printed through its message. -/
  | consoleError (label : String) (detail : String) : Effect
  | downloadMedia : Effect
  | pdf (buffer : Buffer) : Effect
  | fetch (request : Request) : Effect
  | reply (content : JsValue) : Effect

/-- A finished `async` call: its effects in order, and its value or thrown error. -/
structure Run (α : Type) where
  effects : List Effect
  result : Except JsError α

def OPENROUTER_API_URL : String := "https://openrouter.ai/api/v1/chat/completions"

/-! ## The program -/

/-- Function `extractTextFromPDF(buffer)`. -/
def extractTextFromPDF (w : World) (buffer : Buffer) : Run String :=
  match w.pdf buffer with
  | .ok text => ⟨[.pdf buffer], .ok text⟩
  | .error error =>
    ⟨[.pdf buffer, .consoleError "Error extracting text from PDF:" error.message],
      .error ⟨"Failed to extract text from PDF"⟩⟩

/-- The request options shared by both completion functions. -/
def completionRequest (apiKey : String) (content : MessageContent) : Request where
  url := OPENROUTER_API_URL
  method := "POST"
  authorization := "Bearer " ++ apiKey
  referer := "https://github.com/whatsapp-bot"
  title := "WhatsApp AI Bot"
  contentType := "application/json"
  model := "deepseek/deepseek-r1:free"
  role := "user"
  content := content
  temperature := 7 / 10
  top_p := 1
  repetition_penalty := 1

/-- The `prompt` of `processTextWithAI(text, context = '')`; `none` is `undefined`, for
which the default `''` is taken. -/
def textPrompt (text : String) (context : Option String) : String :=
  let context := context.getD ""
  if context ≠ "" then
    "Context from PDF:\n" ++ context ++ "\n\nQuestion: " ++ text
      ++ "\nPlease answer based on the context provided."
  else text

/-- The text part of the image request: `caption || '...'`. -/
def imageText (caption : String) : String :=
  if caption ≠ "" then caption
  else "What do you see in this image? Please describe it in detail."

/-- The lines after `await response.json()`:
`if (data.choices && data.choices[0] && data.choices[0].message) return
data.choices[0].message.content; throw new Error(invalid)`. -/
def readCompletion (data : JsValue) (invalid : String) : Except JsError JsValue :=
  match data.getField "choices" with
  | .error e => .error e
  | .ok choices =>
    if !choices.truthy then .error ⟨invalid⟩ else
    match choices.getIndex0 with
    | .error e => .error e
    | .ok first =>
      if !first.truthy then .error ⟨invalid⟩ else
      match first.getField "message" with
      | .error e => .error e
      | .ok message =>
        if !message.truthy then .error ⟨invalid⟩ else
        message.getField "content"

/-- The body of the `try` block of `processTextWithAI` (`api = "OpenRouter API"`) and of
`processImageWithAI` (`api = "OpenRouter Vision API"`) from the `fetch` call on; the two
differ in these words only. -/
def callCompletion (w : World) (request : Request) (api : String) : Run JsValue :=
  match w.fetch request with
  | .error e => ⟨[.fetch request], .error e⟩
  | .ok response =>
    if !response.ok then
      match response.text with
      | .error e => ⟨[.fetch request], .error e⟩
      | .ok errorData =>
        ⟨[.fetch request, .consoleError (api ++ " Error:") errorData],
          .error ⟨api ++ " responded with status " ++ toString response.status⟩⟩
    else
      match response.json with
      | .error e => ⟨[.fetch request], .error e⟩
      | .ok data => ⟨[.fetch request], readCompletion data ("Invalid response from " ++ api)⟩

/-- The handler `catch (error) { console.error(label, error); throw error; }`. -/
def logAndRethrow {α : Type} (label : String) (r : Run α) : Run α :=
  match r.result with
  | .ok _ => r
  | .error error => ⟨r.effects ++ [.consoleError label error.message], .error error⟩

/-- Function `processTextWithAI(text, context = '')`. -/
def processTextWithAI (w : World) (text : String) (context : Option String) : Run JsValue :=
  logAndRethrow "Error processing with OpenRouter:"
    (callCompletion w
      (completionRequest w.OPENROUTER_API_KEY (.text (textPrompt text context)))
      "OpenRouter API")

/-- Function `processImageWithAI(imageBase64, caption)`. -/
def processImageWithAI (w : World) (imageBase64 caption : String) : Run JsValue :=
  logAndRethrow "Error processing image with OpenRouter:"
    (callCompletion w
      (completionRequest w.OPENROUTER_API_KEY
        (.parts (imageText caption) ("data:image/jpeg;base64," ++ imageBase64)))
      "OpenRouter Vision API")

/-- The state of the map, the effects and the outcome of one run of the handler. -/
structure Handled where
  pdfContexts : Store
  effects : List Effect
  result : Except JsError Unit

def pdfAcknowledgment : String :=
  "I've read the PDF document. You can now ask me questions about its content."

def unsupportedMedia : String :=
  "Sorry, I can only process PDF documents and image files."

/-- The `try` block of the message handler up to the assignment of `response`: the map
afterwards and the run that yields `response`. -/
def computeResponse (w : World) (pdfContexts : Store) (message : Message) :
    Store × Run JsValue :=
  if message.hasMedia then
    match w.downloadMedia with
    | .error e => (pdfContexts, ⟨[.downloadMedia], .error e⟩)
    | .ok none =>
      (pdfContexts, ⟨[.downloadMedia], .error (propertyTypeError .undefined "mimetype")⟩)
    | .ok (some media) =>
      if media.mimetype = "application/pdf" then
        let buffer := w.bufferFrom media.data
        let extraction := extractTextFromPDF w buffer
        let effects :=
          [.downloadMedia, .consoleLog "Processing PDF document..."] ++ extraction.effects
        match extraction.result with
        | .error e => (pdfContexts, ⟨effects, .error e⟩)
        | .ok pdfText =>
          (pdfContexts.set message.from pdfText, ⟨effects, .ok (.str pdfAcknowledgment)⟩)
      else if startsWith media.mimetype "image/" then
        let completion := processImageWithAI w media.data message.body
        (pdfContexts,
          ⟨[.downloadMedia, .consoleLog "Processing image with DeepSeek Vision..."]
            ++ completion.effects, completion.result⟩)
      else
        (pdfContexts, ⟨[.downloadMedia], .ok (.str unsupportedMedia)⟩)
  else
    let pdfContext := pdfContexts.get message.from
    let completion := processTextWithAI w message.body pdfContext
    (pdfContexts,
      ⟨[.consoleLog "Processing text with DeepSeek..."] ++ completion.effects,
        completion.result⟩)

def errorReply (error : JsError) : String :=
  "Sorry, I encountered an error: " ++ error.message

/-- The `catch` block of the message handler, entered with `error` after the effects
`before`, `replies` of which are reply calls. -/
def catchBlock (w : World) (pdfContexts : Store) (before : List Effect) (replies : Nat)
    (error : JsError) : Handled :=
  ⟨pdfContexts,
    before ++ [.consoleError "Error:" error.message, .reply (.str (errorReply error))],
    w.reply replies (.str (errorReply error))⟩

/-- The handler `client.on('message', async (message) => ...)`. -/
def onMessage (w : World) (pdfContexts : Store) (message : Message) : Handled :=
  if startsWith message.body "!" then
    ⟨pdfContexts, [], .ok ()⟩
  else
    let (store, r) := computeResponse w pdfContexts message
    match r.result with
    | .error error => catchBlock w store r.effects 0 error
    | .ok response =>
      match w.reply 0 response with
      | .ok _ => ⟨store, r.effects ++ [.reply response], .ok ()⟩
      | .error error => catchBlock w store (r.effects ++ [.reply response]) 1 error

/-- The handler `client.on('disconnected', (reason) => ...)`. -/
def onDisconnected (pdfContexts : Store) (reason : String) : Store × List Effect :=
  (pdfContexts.clear, [.consoleLog ("Client was disconnected: " ++ reason)])

/-! ## Interleaving of the handlers

The message handler is `async`: it is called when the event is delivered, runs to its
first `await`, and goes on when the awaited promise settles; other events are handled
in between.  Of one run only the steps before `pdfContexts.set` (line 196) matter for
the map: the two suspensions at `await message.downloadMedia()` (line 187) and at
`await pdf(buffer)` (line 44, called from line 193).  The text branch reads the map
(line 210) before its first `await`. -/

/-- A run of the message handler that is suspended before `pdfContexts.set`. -/
inductive Task where
  /-- Suspended at `await message.downloadMedia()`. -/
  | awaitingDownload (w : World) (message : Message) : Task
  /-- Suspended at `await pdf(buffer)`, in the PDF branch. -/
  | awaitingExtraction (w : World) (message : Message) (media : Media) : Task

/-- The message handler from its call to its first `await`: an ignored message and a
message without media leave no run that can still write to the map. -/
def startMessage (w : World) (message : Message) : Option Task :=
  if startsWith message.body "!" then none
  else if message.hasMedia then some (.awaitingDownload w message)
  else none

/-- A suspended run goes on, up to its next suspension before `pdfContexts.set` or
through `pdfContexts.set`: the map afterwards and what is left of the run. -/
def resumeTask (pdfContexts : Store) : Task → Store × Option Task
  | .awaitingDownload w message =>
    match w.downloadMedia with
    | .ok (some media) =>
      if media.mimetype = "application/pdf" then
        (pdfContexts, some (.awaitingExtraction w message media))
      else (pdfContexts, none)
    | _ => (pdfContexts, none)
  | .awaitingExtraction w message media =>
    match w.pdf (w.bufferFrom media.data) with
    | .ok pdfText => (pdfContexts.set message.from pdfText, none)
    | .error _ => (pdfContexts, none)

/-- The process between two events: the map and the suspended runs. -/
structure BotState where
  pdfContexts : Store
  suspended : List Task

/-- The process at startup: `new Map()`, no message in flight. -/
def BotState.initial : BotState := ⟨Store.empty, []⟩

/-- What the event loop delivers. -/
inductive ClientEvent where
  /-- A `message` event, with the world in which its handler runs. -/
  | message (w : World) (message : Message) : ClientEvent
  /-- A `disconnected` event. -/
  | disconnected (reason : String) : ClientEvent
  /-- The promise awaited by the suspended run number `i` settles. -/
  | resume (i : Nat) : ClientEvent

/-- The process after one event. -/
def deliver (s : BotState) : ClientEvent → BotState
  | .message w message =>
    match startMessage w message with
    | none => s
    | some task => ⟨s.pdfContexts, s.suspended ++ [task]⟩
  | .disconnected reason => ⟨(onDisconnected s.pdfContexts reason).1, s.suspended⟩
  | .resume i =>
    match s.suspended.get? i with
    | none => s
    | some task =>
      match resumeTask s.pdfContexts task with
      | (store, none) => ⟨store, s.suspended.eraseIdx i⟩
      | (store, some next) => ⟨store, s.suspended.set i next⟩

/-- The process after a sequence of events. -/
def deliverAll (s : BotState) (events : List ClientEvent) : BotState :=
  events.foldl deliver s

/-! ## Observations on the effects -/

/-- The contents of the `message.reply` calls, in order. -/
def replyCalls : List Effect → List JsValue
  | [] => []
  | .reply content :: rest => content :: replyCalls rest
  | _ :: rest => replyCalls rest

/-- The requests of the `fetch` calls, in order. -/
def fetchCalls : List Effect → List Request
  | [] => []
  | .fetch request :: rest => request :: fetchCalls rest
  | _ :: rest => fetchCalls rest

/-- The buffers handed to `pdf`, in order. -/
def pdfCalls : List Effect → List Buffer
  | [] => []
  | .pdf buffer :: rest => buffer :: pdfCalls rest
  | _ :: rest => pdfCalls rest

/-- The number of `message.downloadMedia` calls. -/
def downloadCalls : List Effect → Nat
  | [] => 0
  | .downloadMedia :: rest => downloadCalls rest + 1
  | _ :: rest => downloadCalls rest

/-! ## Sample data -/

/-- A response body of the expected shape, with `content` as the answer. -/
def sampleJson (content : String) : JsValue :=
  .obj [("choices", .arr [.obj [("message", .obj [("content", .str content)])]])]

/-- A response with a success status and the given parsed body. -/
def okResponse (data : JsValue) : Response :=
  ⟨true, 200, .ok "", .ok data⟩

/-- A response with the non-success status `status` and the body text `body`. -/
def statusResponse (status : Nat) (body : String) : Response :=
  ⟨false, status, .ok body, .error ⟨"invalid json response body"⟩⟩

/-- A world given by what the download, the PDF parser and the completion endpoint
answer, and by whether the reply calls succeed. -/
def sampleWorld (media : Option Media) (pdfText : Except JsError String)
    (response : Except JsError Response) (replyOk : Bool) : World where
  OPENROUTER_API_KEY := "sk-test"
  downloadMedia := .ok media
  bufferFrom := fun data => data.data.map Char.toNat
  pdf := fun _ => pdfText
  fetch := fun _ => response
  reply := fun _ _ => if replyOk then .ok () else .error ⟨"send failed"⟩

/-! ## Lemmas on the store -/

theorem Store.get_set_self (st : Store) (key value : String) :
    (st.set key value).get key = some value := by
  induction st with
  | nil => simp [Store.set, Store.get]
  | cons p rest ih =>
    obtain ⟨k, v⟩ := p
    by_cases h : k = key
    · simp [Store.set, Store.get, h]
    · simp [Store.set, Store.get, h, ih]

theorem Store.get_set_of_ne (st : Store) (key value other : String) (h : other ≠ key) :
    (st.set key value).get other = st.get other := by
  induction st with
  | nil => simp [Store.set, Store.get, Ne.symm h]
  | cons p rest ih =>
    obtain ⟨k, v⟩ := p
    by_cases hk : k = key
    · subst hk
      simp [Store.set, Store.get, Ne.symm h]
    · by_cases ho : k = other
      · subst ho
        simp [Store.set, Store.get, hk]
      · simp [Store.set, Store.get, hk, ho, ih]

theorem Store.length_set (st : Store) (key value : String) :
    (st.set key value).length
      = if (st.get key).isSome then st.length else st.length + 1 := by
  induction st with
  | nil => simp [Store.set, Store.get]
  | cons p rest ih =>
    obtain ⟨k, v⟩ := p
    by_cases h : k = key
    · simp [Store.set, Store.get, h]
    · simp only [Store.set, Store.get, h, if_false, List.length_cons, ih]
      split <;> rfl

theorem Store.set_set (st : Store) (key a b : String) :
    (st.set key a).set key b = st.set key b := by
  induction st with
  | nil => simp [Store.set]
  | cons p rest ih =>
    obtain ⟨k, v⟩ := p
    by_cases h : k = key
    · simp [Store.set, h]
    · simp [Store.set, h, ih]

/-! ## Lemmas on the effects -/

@[simp] theorem replyCalls_append (a b : List Effect) :
    replyCalls (a ++ b) = replyCalls a ++ replyCalls b := by
  induction a with
  | nil => rfl
  | cons e rest ih => cases e <;> simp [replyCalls, ih]

@[simp] theorem fetchCalls_append (a b : List Effect) :
    fetchCalls (a ++ b) = fetchCalls a ++ fetchCalls b := by
  induction a with
  | nil => rfl
  | cons e rest ih => cases e <;> simp [fetchCalls, ih]

@[simp] theorem pdfCalls_append (a b : List Effect) :
    pdfCalls (a ++ b) = pdfCalls a ++ pdfCalls b := by
  induction a with
  | nil => rfl
  | cons e rest ih => cases e <;> simp [pdfCalls, ih]

@[simp] theorem logAndRethrow_result {α : Type} (label : String) (r : Run α) :
    (logAndRethrow label r).result = r.result := by
  unfold logAndRethrow
  split <;> simp_all

@[simp] theorem replyCalls_logAndRethrow {α : Type} (label : String) (r : Run α) :
    replyCalls (logAndRethrow label r).effects = replyCalls r.effects := by
  unfold logAndRethrow
  split <;> simp [replyCalls]

@[simp] theorem fetchCalls_logAndRethrow {α : Type} (label : String) (r : Run α) :
    fetchCalls (logAndRethrow label r).effects = fetchCalls r.effects := by
  unfold logAndRethrow
  split <;> simp [fetchCalls]

@[simp] theorem pdfCalls_logAndRethrow {α : Type} (label : String) (r : Run α) :
    pdfCalls (logAndRethrow label r).effects = pdfCalls r.effects := by
  unfold logAndRethrow
  split <;> simp [pdfCalls]

@[simp] theorem replyCalls_callCompletion (w : World) (request : Request) (api : String) :
    replyCalls (callCompletion w request api).effects = [] := by
  unfold callCompletion
  repeat (first | rfl | split)

@[simp] theorem fetchCalls_callCompletion (w : World) (request : Request) (api : String) :
    fetchCalls (callCompletion w request api).effects = [request] := by
  unfold callCompletion
  repeat (first | rfl | split)

@[simp] theorem pdfCalls_callCompletion (w : World) (request : Request) (api : String) :
    pdfCalls (callCompletion w request api).effects = [] := by
  unfold callCompletion
  repeat (first | rfl | split)

@[simp] theorem replyCalls_extractTextFromPDF (w : World) (buffer : Buffer) :
    replyCalls (extractTextFromPDF w buffer).effects = [] := by
  unfold extractTextFromPDF
  split <;> rfl

@[simp] theorem fetchCalls_extractTextFromPDF (w : World) (buffer : Buffer) :
    fetchCalls (extractTextFromPDF w buffer).effects = [] := by
  unfold extractTextFromPDF
  split <;> rfl

@[simp] theorem pdfCalls_extractTextFromPDF (w : World) (buffer : Buffer) :
    pdfCalls (extractTextFromPDF w buffer).effects = [buffer] := by
  unfold extractTextFromPDF
  split <;> rfl

/-- No reply call is made before `response` is assigned. -/
@[simp] theorem replyCalls_computeResponse (w : World) (st : Store) (message : Message) :
    replyCalls (computeResponse w st message).2.effects = [] := by
  unfold computeResponse
  repeat (first | rfl | split | simp [replyCalls, processImageWithAI, processTextWithAI])

/-- The store after a handled message is the store after `computeResponse`. -/
theorem onMessage_pdfContexts (w : World) (st : Store) (message : Message)
    (hbody : startsWith message.body "!" = false) :
    (onMessage w st message).pdfContexts = (computeResponse w st message).1 := by
  unfold onMessage
  simp only [hbody, Bool.false_eq_true, if_false]
  cases hr : (computeResponse w st message).2.result with
  | error e => simp [catchBlock]
  | ok v =>
    cases hreply : w.reply 0 v with
    | error e => simp [hreply, catchBlock]
    | ok u => simp [hreply]

/-- When `response` is assigned `v`, the first reply call carries `v`; it is the only
one, and the handler completes, when that call succeeds. -/
theorem onMessage_of_response (w : World) (st : Store) (message : Message) (v : JsValue)
    (hbody : startsWith message.body "!" = false)
    (hr : (computeResponse w st message).2.result = .ok v) :
    (replyCalls (onMessage w st message).effects).head? = some v ∧
    (w.reply 0 v = .ok () →
      replyCalls (onMessage w st message).effects = [v] ∧
      (onMessage w st message).result = .ok ()) := by
  unfold onMessage
  simp only [hbody, Bool.false_eq_true, if_false, hr]
  cases hreply : w.reply 0 v with
  | error e => simp [catchBlock, replyCalls]
  | ok u => simp [replyCalls]

/-- When the computation of `response` throws `e`, the only reply call carries the
apology followed by the message of `e`. -/
theorem onMessage_of_failure (w : World) (st : Store) (message : Message) (e : JsError)
    (hbody : startsWith message.body "!" = false)
    (hr : (computeResponse w st message).2.result = .error e) :
    replyCalls (onMessage w st message).effects
      = [.str ("Sorry, I encountered an error: " ++ e.message)] ∧
    (onMessage w st message).result
      = w.reply 0 (.str ("Sorry, I encountered an error: " ++ e.message)) := by
  unfold onMessage
  simp [hbody, hr, catchBlock, replyCalls, errorReply]

/-- The calls to `fetch` and `pdf` of a handled message are those of `computeResponse`. -/
theorem onMessage_calls (w : World) (st : Store) (message : Message)
    (hbody : startsWith message.body "!" = false) :
    fetchCalls (onMessage w st message).effects
      = fetchCalls (computeResponse w st message).2.effects ∧
    pdfCalls (onMessage w st message).effects
      = pdfCalls (computeResponse w st message).2.effects := by
  unfold onMessage
  simp only [hbody, Bool.false_eq_true, if_false]
  cases hr : (computeResponse w st message).2.result with
  | error e => simp [catchBlock, fetchCalls, pdfCalls]
  | ok v =>
    cases hreply : w.reply 0 v with
    | error e => simp [hreply, catchBlock, fetchCalls, pdfCalls]
    | ok u => simp [hreply, fetchCalls, pdfCalls]

/-! ## The claims -/

/-- C2: a message whose body starts with `!` is ignored: the handler performs no effect
at all (no reply, no media download, no PDF extraction, no completion request), leaves
the context store as it was and completes normally. -/
theorem C2_ignored_message_does_nothing (w : World) (pdfContexts : Store)
    (message : Message) (hbody : startsWith message.body "!" = true) :
    (onMessage w pdfContexts message).effects = [] ∧
    replyCalls (onMessage w pdfContexts message).effects = [] ∧
    downloadCalls (onMessage w pdfContexts message).effects = 0 ∧
    pdfCalls (onMessage w pdfContexts message).effects = [] ∧
    fetchCalls (onMessage w pdfContexts message).effects = [] ∧
    (onMessage w pdfContexts message).pdfContexts = pdfContexts ∧
    (onMessage w pdfContexts message).result = .ok () := by
  simp [onMessage, hbody, replyCalls, downloadCalls, pdfCalls, fetchCalls]

/-- C1: for a non-ignored message with media of mimetype `application/pdf` whose text
extraction succeeds with `t`, whatever the store held before: afterwards the store is
the old one with `message.from` set to `t` (so it maps `message.from` to exactly `t`,
every other conversation is unchanged, and an existing entry is overwritten in place,
not appended to), and the reply is the fixed acknowledgment, whatever `t` is; it is the
only reply call, and the handler completes, when that reply call succeeds. -/
theorem C1_pdf_upload_stores_text (w : World) (pdfContexts : Store) (message : Message)
    (media : Media) (t : String)
    (hbody : startsWith message.body "!" = false)
    (hmedia : message.hasMedia = true)
    (hdownload : w.downloadMedia = .ok (some media))
    (hmime : media.mimetype = "application/pdf")
    (hextract : (extractTextFromPDF w (w.bufferFrom media.data)).result = .ok t) :
    (onMessage w pdfContexts message).pdfContexts = pdfContexts.set message.from t ∧
    (onMessage w pdfContexts message).pdfContexts.get message.from = some t ∧
    (∀ other, other ≠ message.from →
      (onMessage w pdfContexts message).pdfContexts.get other = pdfContexts.get other) ∧
    ((pdfContexts.get message.from).isSome = true →
      (onMessage w pdfContexts message).pdfContexts.length = pdfContexts.length) ∧
    (replyCalls (onMessage w pdfContexts message).effects).head? = some (.str
      "I've read the PDF document. You can now ask me questions about its content.") ∧
    (w.reply 0 (.str
        "I've read the PDF document. You can now ask me questions about its content.")
        = .ok () →
      replyCalls (onMessage w pdfContexts message).effects = [.str
        "I've read the PDF document. You can now ask me questions about its content."] ∧
      (onMessage w pdfContexts message).result = .ok ()) := by
  have hc : computeResponse w pdfContexts message
      = (pdfContexts.set message.from t,
          ⟨[.downloadMedia, .consoleLog "Processing PDF document..."]
            ++ (extractTextFromPDF w (w.bufferFrom media.data)).effects,
            .ok (.str pdfAcknowledgment)⟩) := by
    simp [computeResponse, hmedia, hdownload, hmime, hextract]
  have hstore := onMessage_pdfContexts w pdfContexts message hbody
  rw [hc] at hstore
  have hreply := onMessage_of_response w pdfContexts message (.str pdfAcknowledgment) hbody
    (by rw [hc])
  refine ⟨hstore, ?_, ?_, ?_, hreply.1, hreply.2⟩
  · rw [hstore]; exact Store.get_set_self _ _ _
  · intro other hne
    rw [hstore]; exact Store.get_set_of_ne _ _ _ _ hne
  · intro hsome
    rw [hstore, Store.length_set, if_pos hsome]

/-- C1, at a second upload to a conversation that already has a document. -/
theorem C1_pdf_upload_stores_text_witness :
    startsWith (Message.mk "alice" "" true).body "!" = false ∧
    (onMessage (sampleWorld (some ⟨"application/pdf", "JVBERi0="⟩) (.ok "second text")
        (.ok (okResponse (sampleJson "an answer"))) true)
      [("alice", "first text"), ("bob", "notes")] ⟨"alice", "", true⟩).pdfContexts.get "alice"
      = some "second text" :=
  ⟨by decide,
    (C1_pdf_upload_stores_text
      (sampleWorld (some ⟨"application/pdf", "JVBERi0="⟩) (.ok "second text")
        (.ok (okResponse (sampleJson "an answer"))) true)
      [("alice", "first text"), ("bob", "notes")] ⟨"alice", "", true⟩
      ⟨"application/pdf", "JVBERi0="⟩ "second text"
      (by decide) rfl rfl rfl rfl).2.1⟩

/-- C2, at the message `!ping` with an attachment. -/
theorem C2_ignored_message_does_nothing_witness :
    startsWith (Message.mk "alice" "!ping" true).body "!" = true ∧
    (onMessage (sampleWorld (some ⟨"application/pdf", "JVBERi0="⟩) (.ok "text")
        (.ok (okResponse (sampleJson "an answer"))) true)
      [("alice", "first text")] ⟨"alice", "!ping", true⟩).effects = [] ∧
    (onMessage (sampleWorld (some ⟨"application/pdf", "JVBERi0="⟩) (.ok "text")
        (.ok (okResponse (sampleJson "an answer"))) true)
      [("alice", "first text")] ⟨"alice", "!ping", true⟩).pdfContexts
      = [("alice", "first text")] :=
  have h := C2_ignored_message_does_nothing
    (sampleWorld (some ⟨"application/pdf", "JVBERi0="⟩) (.ok "text")
      (.ok (okResponse (sampleJson "an answer"))) true)
    [("alice", "first text")] ⟨"alice", "!ping", true⟩ (by decide)
  ⟨by decide, h.1, h.2.2.2.2.2.1⟩

/-- C9: for a non-ignored message with media whose mimetype is neither
`application/pdf` nor starts with `image/`, the handler makes no call to the PDF parser
and none to the completion endpoint, leaves the store unchanged, and replies with the
fixed "unsupported" string; that is the only reply call, and the handler completes,
when the reply call succeeds. -/
theorem C9_unsupported_media (w : World) (pdfContexts : Store) (message : Message)
    (media : Media)
    (hbody : startsWith message.body "!" = false)
    (hmedia : message.hasMedia = true)
    (hdownload : w.downloadMedia = .ok (some media))
    (hpdf : media.mimetype ≠ "application/pdf")
    (himage : startsWith media.mimetype "image/" = false) :
    pdfCalls (onMessage w pdfContexts message).effects = [] ∧
    fetchCalls (onMessage w pdfContexts message).effects = [] ∧
    (onMessage w pdfContexts message).pdfContexts = pdfContexts ∧
    (replyCalls (onMessage w pdfContexts message).effects).head?
      = some (.str "Sorry, I can only process PDF documents and image files.") ∧
    (w.reply 0 (.str "Sorry, I can only process PDF documents and image files.") = .ok () →
      replyCalls (onMessage w pdfContexts message).effects
        = [.str "Sorry, I can only process PDF documents and image files."] ∧
      (onMessage w pdfContexts message).result = .ok ()) := by
  have hc : computeResponse w pdfContexts message
      = (pdfContexts, ⟨[.downloadMedia], .ok (.str unsupportedMedia)⟩) := by
    simp [computeResponse, hmedia, hdownload, hpdf, himage]
  have hstore := onMessage_pdfContexts w pdfContexts message hbody
  have hcalls := onMessage_calls w pdfContexts message hbody
  have hreply := onMessage_of_response w pdfContexts message (.str unsupportedMedia) hbody
    (by rw [hc])
  rw [hc] at hstore hcalls
  exact ⟨hcalls.2, hcalls.1, hstore, hreply.1, hreply.2⟩

/-- C9, at a voice note sent to a conversation with a stored document. -/
theorem C9_unsupported_media_witness :
    startsWith (Message.mk "alice" "listen" true).body "!" = false ∧
    (Media.mk "audio/ogg" "T2dnUw==").mimetype ≠ "application/pdf" ∧
    startsWith (Media.mk "audio/ogg" "T2dnUw==").mimetype "image/" = false ∧
    fetchCalls (onMessage (sampleWorld (some ⟨"audio/ogg", "T2dnUw=="⟩) (.ok "text")
        (.ok (okResponse (sampleJson "an answer"))) true)
      [("alice", "first text")] ⟨"alice", "listen", true⟩).effects = [] ∧
    replyCalls (onMessage (sampleWorld (some ⟨"audio/ogg", "T2dnUw=="⟩) (.ok "text")
        (.ok (okResponse (sampleJson "an answer"))) true)
      [("alice", "first text")] ⟨"alice", "listen", true⟩).effects
      = [.str "Sorry, I can only process PDF documents and image files."] :=
  have h := C9_unsupported_media
    (sampleWorld (some ⟨"audio/ogg", "T2dnUw=="⟩) (.ok "text")
      (.ok (okResponse (sampleJson "an answer"))) true)
    [("alice", "first text")] ⟨"alice", "listen", true⟩ ⟨"audio/ogg", "T2dnUw=="⟩
    (by decide) rfl rfl (by decide) (by decide)
  ⟨by decide, by decide, by decide, h.2.1, (h.2.2.2.2 rfl).1⟩

/-- C8: for a non-ignored message with media whose mimetype starts with `image/` (it
is then not `application/pdf`), the handler issues exactly the completion request of
`processImageWithAI(media.data, message.body)`: its text part is the body when the body
is non-empty and the fixed default otherwise, its image part embeds `media.data`; the
PDF parser is not called and the store is unchanged.  When the image completion returns
`v`, the reply carries `v`; it is the only reply call, and the handler completes, when
the reply call succeeds. -/
theorem C8_image_message (w : World) (pdfContexts : Store) (message : Message)
    (media : Media)
    (hbody : startsWith message.body "!" = false)
    (hmedia : message.hasMedia = true)
    (hdownload : w.downloadMedia = .ok (some media))
    (himage : startsWith media.mimetype "image/" = true) :
    media.mimetype ≠ "application/pdf" ∧
    fetchCalls (onMessage w pdfContexts message).effects
      = fetchCalls (processImageWithAI w media.data message.body).effects ∧
    fetchCalls (onMessage w pdfContexts message).effects
      = [{ url := "https://openrouter.ai/api/v1/chat/completions"
           method := "POST"
           authorization := "Bearer " ++ w.OPENROUTER_API_KEY
           referer := "https://github.com/whatsapp-bot"
           title := "WhatsApp AI Bot"
           contentType := "application/json"
           model := "deepseek/deepseek-r1:free"
           role := "user"
           content := .parts
             (if message.body = "" then
               "What do you see in this image? Please describe it in detail."
             else message.body)
             ("data:image/jpeg;base64," ++ media.data)
           temperature := 7 / 10
           top_p := 1
           repetition_penalty := 1 }] ∧
    pdfCalls (onMessage w pdfContexts message).effects = [] ∧
    (onMessage w pdfContexts message).pdfContexts = pdfContexts ∧
    (∀ v, (processImageWithAI w media.data message.body).result = .ok v →
      (replyCalls (onMessage w pdfContexts message).effects).head? = some v ∧
      (w.reply 0 v = .ok () →
        replyCalls (onMessage w pdfContexts message).effects = [v] ∧
        (onMessage w pdfContexts message).result = .ok ())) := by
  have hpdf : media.mimetype ≠ "application/pdf" := by
    intro h
    rw [h] at himage
    revert himage
    decide
  have hc : computeResponse w pdfContexts message
      = (pdfContexts,
          ⟨[.downloadMedia, .consoleLog "Processing image with DeepSeek Vision..."]
            ++ (processImageWithAI w media.data message.body).effects,
            (processImageWithAI w media.data message.body).result⟩) := by
    simp [computeResponse, hmedia, hdownload, hpdf, himage]
  have hstore := onMessage_pdfContexts w pdfContexts message hbody
  have hcalls := onMessage_calls w pdfContexts message hbody
  rw [hc] at hstore hcalls
  have hfetch : fetchCalls (onMessage w pdfContexts message).effects
      = fetchCalls (processImageWithAI w media.data message.body).effects := by
    rw [hcalls.1]; simp [fetchCalls]
  refine ⟨hpdf, hfetch, ?_, ?_, hstore, ?_⟩
  · rw [hfetch]
    by_cases hb : message.body = "" <;>
      simp [processImageWithAI, imageText, hb, completionRequest, OPENROUTER_API_URL]
  · rw [hcalls.2]; simp [pdfCalls, processImageWithAI]
  · intro v hv
    exact onMessage_of_response w pdfContexts message v hbody (by rw [hc]; exact hv)

/-- C8, at a photo sent without a caption. -/
theorem C8_image_message_witness :
    startsWith (Message.mk "alice" "" true).body "!" = false ∧
    startsWith (Media.mk "image/png" "iVBORw0KGgo=").mimetype "image/" = true ∧
    fetchCalls (onMessage (sampleWorld (some ⟨"image/png", "iVBORw0KGgo="⟩) (.ok "text")
        (.ok (okResponse (sampleJson "a cat"))) true)
      [("alice", "first text")] ⟨"alice", "", true⟩).effects
      = [{ url := "https://openrouter.ai/api/v1/chat/completions"
           method := "POST"
           authorization := "Bearer sk-test"
           referer := "https://github.com/whatsapp-bot"
           title := "WhatsApp AI Bot"
           contentType := "application/json"
           model := "deepseek/deepseek-r1:free"
           role := "user"
           content := .parts "What do you see in this image? Please describe it in detail."
             "data:image/jpeg;base64,iVBORw0KGgo="
           temperature := 7 / 10
           top_p := 1
           repetition_penalty := 1 }] ∧
    replyCalls (onMessage (sampleWorld (some ⟨"image/png", "iVBORw0KGgo="⟩) (.ok "text")
        (.ok (okResponse (sampleJson "a cat"))) true)
      [("alice", "first text")] ⟨"alice", "", true⟩).effects = [.str "a cat"] :=
  have h := C8_image_message
    (sampleWorld (some ⟨"image/png", "iVBORw0KGgo="⟩) (.ok "text")
      (.ok (okResponse (sampleJson "a cat"))) true)
    [("alice", "first text")] ⟨"alice", "", true⟩ ⟨"image/png", "iVBORw0KGgo="⟩
    (by decide) rfl rfl (by decide)
  ⟨by decide, by decide, h.2.2.1, (h.2.2.2.2.2 (.str "a cat") rfl).2 rfl |>.1⟩

/-- C5: when the handling of a non-ignored message fails with error `e` in the
document extractor (`extractTextFromPDF`, PDF branch) or in the inference client
(`processImageWithAI`, image branch; `processTextWithAI`, text branch), the handler
makes exactly one reply call, with `'Sorry, I encountered an error: '` followed by the
message of `e`, and the store is exactly as before.  The error of the extractor always
has the message `'Failed to extract text from PDF'`. -/
theorem C5_failure_is_reported (w : World) (pdfContexts : Store) (message : Message)
    (e : JsError)
    (hbody : startsWith message.body "!" = false)
    (hfail :
      (message.hasMedia = true ∧ ∃ media, w.downloadMedia = .ok (some media) ∧
        media.mimetype = "application/pdf" ∧
        (extractTextFromPDF w (w.bufferFrom media.data)).result = .error e) ∨
      (message.hasMedia = true ∧ ∃ media, w.downloadMedia = .ok (some media) ∧
        startsWith media.mimetype "image/" = true ∧
        (processImageWithAI w media.data message.body).result = .error e) ∨
      (message.hasMedia = false ∧
        (processTextWithAI w message.body (pdfContexts.get message.from)).result
          = .error e)) :
    replyCalls (onMessage w pdfContexts message).effects
      = [.str ("Sorry, I encountered an error: " ++ e.message)] ∧
    (onMessage w pdfContexts message).pdfContexts = pdfContexts ∧
    (∀ buffer e1, (extractTextFromPDF w buffer).result = .error e1 →
      e1.message = "Failed to extract text from PDF") := by
  have hc : (computeResponse w pdfContexts message).1 = pdfContexts ∧
      (computeResponse w pdfContexts message).2.result = .error e := by
    rcases hfail with ⟨hmedia, media, hdownload, hmime, hx⟩ |
      ⟨hmedia, media, hdownload, himage, hx⟩ | ⟨hmedia, hx⟩
    · simp [computeResponse, hmedia, hdownload, hmime, hx]
    · have hpdf : media.mimetype ≠ "application/pdf" := by
        intro h
        rw [h] at himage
        revert himage
        decide
      simp [computeResponse, hmedia, hdownload, hpdf, himage, hx]
    · simp [computeResponse, hmedia, hx]
  refine ⟨(onMessage_of_failure w pdfContexts message e hbody hc.2).1, ?_, ?_⟩
  · rw [onMessage_pdfContexts w pdfContexts message hbody]; exact hc.1
  · intro buffer e1 h1
    unfold extractTextFromPDF at h1
    cases hp : w.pdf buffer with
    | ok text => simp [hp] at h1
    | error e0 =>
      simp only [hp, Except.error.injEq] at h1
      rw [← h1]

/-- C5, at a corrupt PDF sent to a conversation that already has a document. -/
theorem C5_failure_is_reported_witness :
    startsWith (Message.mk "alice" "" true).body "!" = false ∧
    replyCalls (onMessage (sampleWorld (some ⟨"application/pdf", "JVBERi0="⟩)
        (.error ⟨"Invalid PDF structure"⟩) (.ok (okResponse (sampleJson "an answer"))) true)
      [("alice", "first text")] ⟨"alice", "", true⟩).effects
      = [.str "Sorry, I encountered an error: Failed to extract text from PDF"] ∧
    (onMessage (sampleWorld (some ⟨"application/pdf", "JVBERi0="⟩)
        (.error ⟨"Invalid PDF structure"⟩) (.ok (okResponse (sampleJson "an answer"))) true)
      [("alice", "first text")] ⟨"alice", "", true⟩).pdfContexts
      = [("alice", "first text")] :=
  have h := C5_failure_is_reported
    (sampleWorld (some ⟨"application/pdf", "JVBERi0="⟩)
      (.error ⟨"Invalid PDF structure"⟩) (.ok (okResponse (sampleJson "an answer"))) true)
    [("alice", "first text")] ⟨"alice", "", true⟩ ⟨"Failed to extract text from PDF"⟩
    (by decide) (Or.inl ⟨rfl, ⟨"application/pdf", "JVBERi0="⟩, rfl, rfl, rfl⟩)
  ⟨by decide, h.1, h.2.1⟩

/-- The handler makes at most two reply calls, and at least one for a message that is
not ignored; an error leaves the handler only as the failure of the reply call of the
`catch` block. -/
theorem onMessage_reply_bounds (w : World) (st : Store) (message : Message) :
    (replyCalls (onMessage w st message).effects).length ≤ 2 ∧
    (startsWith message.body "!" = false →
      1 ≤ (replyCalls (onMessage w st message).effects).length) ∧
    (∀ e, (onMessage w st message).result = .error e →
      ∃ (n : Nat) (e0 : JsError),
        w.reply n (.str ("Sorry, I encountered an error: " ++ e0.message)) = .error e) := by
  unfold onMessage
  cases hbody : startsWith message.body "!" with
  | true => simp [replyCalls]
  | false =>
    simp only [Bool.false_eq_true, if_false]
    cases hr : (computeResponse w st message).2.result with
    | error e0 =>
      simp only [catchBlock, replyCalls_append, replyCalls_computeResponse, replyCalls,
        errorReply]
      exact ⟨by simp, fun _ => by simp, fun e he => ⟨0, e0, he⟩⟩
    | ok v =>
      cases hreply : w.reply 0 v with
      | error e0 =>
        simp only [hreply, catchBlock, replyCalls_append, replyCalls_computeResponse,
          replyCalls, errorReply]
        exact ⟨by simp, fun _ => by simp, fun e he => ⟨1, e0, he⟩⟩
      | ok u => simp [hreply, replyCalls]

/-- The request that the handler hands to `fetch` is answered inside one of the two
completion functions: the outcome of `response` is the outcome of that call. -/
theorem computeResponse_of_fetch (w : World) (st : Store) (message : Message)
    (request : Request)
    (h : request ∈ fetchCalls (computeResponse w st message).2.effects) :
    (computeResponse w st message).2.result
      = (callCompletion w request
          (if message.hasMedia then "OpenRouter Vision API" else "OpenRouter API")).result := by
  unfold computeResponse at h ⊢
  cases hm : message.hasMedia with
  | false =>
    simp only [hm, Bool.false_eq_true, if_false, processTextWithAI, fetchCalls_append,
      fetchCalls, fetchCalls_logAndRethrow, fetchCalls_callCompletion, List.nil_append,
      List.mem_singleton] at h
    simp [processTextWithAI, h]
  | true =>
    simp only [hm, if_true] at h ⊢
    cases hd : w.downloadMedia with
    | error e => simp [hd, fetchCalls] at h
    | ok o =>
      cases o with
      | none => simp [hd, fetchCalls] at h
      | some media =>
        simp only [hd] at h ⊢
        by_cases hp : media.mimetype = "application/pdf"
        · simp only [hp, if_true] at h
          split at h <;> simp [fetchCalls] at h
        · simp only [hp, if_false] at h ⊢
          cases hi : startsWith media.mimetype "image/" with
          | false => simp [hi, fetchCalls] at h
          | true =>
            simp only [hi, if_true, processImageWithAI, fetchCalls_append, fetchCalls,
              fetchCalls_logAndRethrow, fetchCalls_callCompletion, List.nil_append,
              List.mem_singleton] at h
            simp [processImageWithAI, h]

/-- A buffer handed to `pdf` comes from the PDF branch: when the parser rejects it, the
outcome of `response` is the error of `extractTextFromPDF`. -/
theorem computeResponse_of_pdf (w : World) (st : Store) (message : Message)
    (buffer : Buffer) (e : JsError)
    (h : buffer ∈ pdfCalls (computeResponse w st message).2.effects)
    (he : w.pdf buffer = .error e) :
    (computeResponse w st message).2.result
      = .error ⟨"Failed to extract text from PDF"⟩ := by
  unfold computeResponse at h ⊢
  cases hm : message.hasMedia with
  | false => simp [hm, processTextWithAI, pdfCalls] at h
  | true =>
    simp only [hm, if_true] at h ⊢
    cases hd : w.downloadMedia with
    | error e => simp [hd, pdfCalls] at h
    | ok o =>
      cases o with
      | none => simp [hd, pdfCalls] at h
      | some media =>
        simp only [hd] at h ⊢
        by_cases hp : media.mimetype = "application/pdf"
        · simp only [hp, if_true] at h ⊢
          have hb : buffer = w.bufferFrom media.data := by
            split at h <;> simpa [pdfCalls] using h
          subst hb
          simp [extractTextFromPDF, he]
        · simp only [hp, if_false] at h
          cases hi : startsWith media.mimetype "image/" with
          | false => simp [hi, pdfCalls] at h
          | true => simp [hi, pdfCalls, processImageWithAI] at h

/-- C3 (as stated, refuted): a text message whose completion succeeds, in a world where
the reply calls fail, gets two reply calls, and the error of the second one leaves the
handler. -/
theorem C3_failing_reply_counterexample :
    startsWith (Message.mk "alice" "hi" false).body "!" = false ∧
    replyCalls (onMessage (sampleWorld none (.ok "")
        (.ok (okResponse (sampleJson "an answer"))) false) [] ⟨"alice", "hi", false⟩).effects
      = [.str "an answer", .str "Sorry, I encountered an error: send failed"] ∧
    (onMessage (sampleWorld none (.ok "")
        (.ok (okResponse (sampleJson "an answer"))) false) [] ⟨"alice", "hi", false⟩).result
      = .error ⟨"send failed"⟩ :=
  ⟨by decide, rfl, rfl⟩

/-- C3 (amended): whatever the media download, the extractor and the completion
endpoint do, if the first reply call that the handler makes succeeds, then the handler
completes without an error; it makes no reply call for an ignored message and exactly
one otherwise.  Every failure ends in that one reply being
`'Sorry, I encountered an error: '` followed by the message of the error: a rejected
download, a download without media, a PDF that the parser rejects (reported as
`'Failed to extract text from PDF'`), a rejected `fetch`, a non-success status (reported
with the status), a body that cannot be read or parsed, and a body of the wrong shape;
when nothing fails the one reply is the computed response. -/
theorem C3_one_reply_when_reply_succeeds (w : World) (pdfContexts : Store)
    (message : Message)
    (hreply : ∀ v, (replyCalls (onMessage w pdfContexts message).effects).head? = some v →
      w.reply 0 v = .ok ()) :
    (onMessage w pdfContexts message).result = .ok () ∧
    (startsWith message.body "!" = true →
      replyCalls (onMessage w pdfContexts message).effects = []) ∧
    (startsWith message.body "!" = false →
      (replyCalls (onMessage w pdfContexts message).effects).length = 1 ∧
      (message.hasMedia = true →
        (∀ e, w.downloadMedia = .error e →
          replyCalls (onMessage w pdfContexts message).effects
            = [.str ("Sorry, I encountered an error: " ++ e.message)]) ∧
        (w.downloadMedia = .ok none →
          replyCalls (onMessage w pdfContexts message).effects
            = [.str ("Sorry, I encountered an error: "
                ++ "Cannot read properties of undefined (reading 'mimetype')")])) ∧
      (∀ buffer e, buffer ∈ pdfCalls (onMessage w pdfContexts message).effects →
        w.pdf buffer = .error e →
        replyCalls (onMessage w pdfContexts message).effects
          = [.str "Sorry, I encountered an error: Failed to extract text from PDF"]) ∧
      (∀ request, request ∈ fetchCalls (onMessage w pdfContexts message).effects →
        (∀ e, w.fetch request = .error e →
          replyCalls (onMessage w pdfContexts message).effects
            = [.str ("Sorry, I encountered an error: " ++ e.message)]) ∧
        (∀ response, w.fetch request = .ok response →
          (response.ok = false →
            (∀ e, response.text = .error e →
              replyCalls (onMessage w pdfContexts message).effects
                = [.str ("Sorry, I encountered an error: " ++ e.message)]) ∧
            (∀ b, response.text = .ok b →
              replyCalls (onMessage w pdfContexts message).effects
                = [.str ("Sorry, I encountered an error: "
                    ++ ((if message.hasMedia then "OpenRouter Vision API"
                          else "OpenRouter API")
                      ++ " responded with status " ++ toString response.status))])) ∧
          (response.ok = true →
            (∀ e, response.json = .error e →
              replyCalls (onMessage w pdfContexts message).effects
                = [.str ("Sorry, I encountered an error: " ++ e.message)]) ∧
            (∀ data, response.json = .ok data →
              (∀ e, readCompletion data ("Invalid response from "
                    ++ (if message.hasMedia then "OpenRouter Vision API"
                        else "OpenRouter API")) = .error e →
                replyCalls (onMessage w pdfContexts message).effects
                  = [.str ("Sorry, I encountered an error: " ++ e.message)]) ∧
              (∀ v, readCompletion data ("Invalid response from "
                    ++ (if message.hasMedia then "OpenRouter Vision API"
                        else "OpenRouter API")) = .ok v →
                replyCalls (onMessage w pdfContexts message).effects = [v]))))) ∧
      (∀ v, (computeResponse w pdfContexts message).2.result = .ok v →
        replyCalls (onMessage w pdfContexts message).effects = [v]) ∧
      (∀ e, (computeResponse w pdfContexts message).2.result = .error e →
        replyCalls (onMessage w pdfContexts message).effects
          = [.str ("Sorry, I encountered an error: " ++ e.message)])) := by
  cases hbody : startsWith message.body "!" with
  | true => simp [onMessage, hbody, replyCalls]
  | false =>
    have kerr : ∀ e, (computeResponse w pdfContexts message).2.result = .error e →
        replyCalls (onMessage w pdfContexts message).effects
          = [.str ("Sorry, I encountered an error: " ++ e.message)] :=
      fun e h => (onMessage_of_failure w pdfContexts message e hbody h).1
    have kok : ∀ v, (computeResponse w pdfContexts message).2.result = .ok v →
        replyCalls (onMessage w pdfContexts message).effects = [v] := by
      intro v h
      have hv := onMessage_of_response w pdfContexts message v hbody h
      exact (hv.2 (hreply v hv.1)).1
    have hcalls := onMessage_calls w pdfContexts message hbody
    refine ⟨?_, by simp, fun _ => ⟨?_, ?_, ?_, ?_, kok, kerr⟩⟩
    · cases hr : (computeResponse w pdfContexts message).2.result with
      | error e =>
        have h := onMessage_of_failure w pdfContexts message e hbody hr
        rw [h.2]
        exact hreply _ (by rw [h.1]; rfl)
      | ok v =>
        have hv := onMessage_of_response w pdfContexts message v hbody hr
        exact (hv.2 (hreply v hv.1)).2
    · cases hr : (computeResponse w pdfContexts message).2.result with
      | error e => rw [kerr e hr]; rfl
      | ok v => rw [kok v hr]; rfl
    · intro hm
      constructor
      · intro e hd
        exact kerr e (by simp [computeResponse, hm, hd])
      · intro hd
        exact kerr (propertyTypeError .undefined "mimetype")
          (by simp [computeResponse, hm, hd])
    · intro buffer e hb he
      rw [hcalls.2] at hb
      exact kerr _ (computeResponse_of_pdf w pdfContexts message buffer e hb he)
    · intro request hreq
      rw [hcalls.1] at hreq
      have hres := computeResponse_of_fetch w pdfContexts message request hreq
      refine ⟨?_, ?_⟩
      · intro e hf
        exact kerr e (by rw [hres]; simp [callCompletion, hf])
      · intro response hf
        refine ⟨fun hok => ⟨?_, ?_⟩, fun hok => ⟨?_, ?_⟩⟩
        · intro e ht
          exact kerr e (by rw [hres]; simp [callCompletion, hf, hok, ht])
        · intro b ht
          exact kerr ⟨(if message.hasMedia then "OpenRouter Vision API"
              else "OpenRouter API") ++ " responded with status "
              ++ toString response.status⟩
            (by rw [hres]; simp [callCompletion, hf, hok, ht])
        · intro e hj
          exact kerr e (by rw [hres]; simp [callCompletion, hf, hok, hj])
        · intro data hj
          refine ⟨?_, ?_⟩
          · intro e hrc
            exact kerr e (by rw [hres]; simp [callCompletion, hf, hok, hj, hrc])
          · intro v hrc
            exact kok v (by rw [hres]; simp [callCompletion, hf, hok, hj, hrc])

/-- C3 (amended), at a text message whose completion request is refused. -/
theorem C3_one_reply_when_reply_succeeds_witness :
    (∀ v, (replyCalls (onMessage
        (sampleWorld none (.ok "") (.ok (statusResponse 429 "quota")) true)
        [] ⟨"alice", "hi", false⟩).effects).head? = some v →
      (sampleWorld none (.ok "") (.ok (statusResponse 429 "quota")) true).reply 0 v
        = .ok ()) ∧
    (onMessage (sampleWorld none (.ok "") (.ok (statusResponse 429 "quota")) true)
      [] ⟨"alice", "hi", false⟩).result = .ok () ∧
    replyCalls (onMessage (sampleWorld none (.ok "") (.ok (statusResponse 429 "quota")) true)
      [] ⟨"alice", "hi", false⟩).effects
      = [.str "Sorry, I encountered an error: OpenRouter API responded with status 429"] :=
  have h := C3_one_reply_when_reply_succeeds
    (sampleWorld none (.ok "") (.ok (statusResponse 429 "quota")) true)
    [] ⟨"alice", "hi", false⟩ (fun _ _ => rfl)
  ⟨fun _ _ => rfl, h.1,
    (((h.2.2 (by decide)).2.2.2.1
      (completionRequest "sk-test" (.text "hi")) (List.Mem.head _)).2
        (statusResponse 429 "quota") rfl).1 rfl |>.2 "quota" rfl⟩

/-- The prompt built around a document text differs from the bare question. -/
theorem template_ne_text (c text : String) :
    "Context from PDF:\n" ++ c ++ "\n\nQuestion: " ++ text
      ++ "\nPlease answer based on the context provided." ≠ text := by
  intro h
  have hlen := congrArg String.length h
  have h1 : ("Context from PDF:\n").length = 18 := by decide
  have h2 : ("\n\nQuestion: ").length = 12 := by decide
  have h3 : ("\nPlease answer based on the context provided.").length = 45 := by decide
  simp only [String.length_append, h1, h2, h3] at hlen
  omega

/-- C4 (as stated, refuted): when the store holds the empty text for the conversation,
the prompt sent is the raw body, not the template around the empty text, although an
entry exists. -/
theorem C4_empty_context_counterexample :
    Store.get [("alice", "")] (Message.mk "alice" "hi" false).from = some "" ∧
    fetchCalls (onMessage (sampleWorld none (.ok "")
        (.ok (okResponse (sampleJson "an answer"))) true)
      [("alice", "")] ⟨"alice", "hi", false⟩).effects
      = [{ url := "https://openrouter.ai/api/v1/chat/completions"
           method := "POST"
           authorization := "Bearer sk-test"
           referer := "https://github.com/whatsapp-bot"
           title := "WhatsApp AI Bot"
           contentType := "application/json"
           model := "deepseek/deepseek-r1:free"
           role := "user"
           content := .text "hi"
           temperature := 7 / 10
           top_p := 1
           repetition_penalty := 1 }] ∧
    "hi" ≠ "Context from PDF:\n" ++ "" ++ "\n\nQuestion: " ++ "hi"
      ++ "\nPlease answer based on the context provided." :=
  ⟨rfl, rfl, by decide⟩

/-- C4 (amended): for a non-ignored message without media the handler issues exactly
one completion request, with a text prompt.  If the store holds a non-empty document
text `c` for `message.from`, the prompt is the fixed template with `c` before the
question; the prompt is the raw body exactly when the store has no entry for the
conversation or the entry is the empty string. -/
theorem C4_text_prompt (w : World) (pdfContexts : Store) (message : Message)
    (hbody : startsWith message.body "!" = false)
    (hmedia : message.hasMedia = false) :
    ∃ prompt : String,
      fetchCalls (onMessage w pdfContexts message).effects
        = [{ url := "https://openrouter.ai/api/v1/chat/completions"
             method := "POST"
             authorization := "Bearer " ++ w.OPENROUTER_API_KEY
             referer := "https://github.com/whatsapp-bot"
             title := "WhatsApp AI Bot"
             contentType := "application/json"
             model := "deepseek/deepseek-r1:free"
             role := "user"
             content := .text prompt
             temperature := 7 / 10
             top_p := 1
             repetition_penalty := 1 }] ∧
      (∀ c, pdfContexts.get message.from = some c → c ≠ "" →
        prompt = "Context from PDF:\n" ++ c ++ "\n\nQuestion: " ++ message.body
          ++ "\nPlease answer based on the context provided.") ∧
      (prompt = message.body ↔
        (pdfContexts.get message.from = none ∨ pdfContexts.get message.from = some "")) := by
  refine ⟨textPrompt message.body (pdfContexts.get message.from), ?_, ?_, ?_⟩
  · rw [(onMessage_calls w pdfContexts message hbody).1]
    simp [computeResponse, hmedia, fetchCalls, processTextWithAI, completionRequest,
      OPENROUTER_API_URL]
  · intro c hc hne
    simp [textPrompt, hc, hne]
  · cases hc : pdfContexts.get message.from with
    | none => simp [textPrompt]
    | some c =>
      by_cases hne : c = ""
      · simp [textPrompt, hne]
      · simp [textPrompt, hne, template_ne_text]

/-- C4 (amended), at a question asked after a document was stored. -/
theorem C4_text_prompt_witness :
    startsWith (Message.mk "alice" "Who signed?" false).body "!" = false ∧
    fetchCalls (onMessage (sampleWorld none (.ok "")
        (.ok (okResponse (sampleJson "an answer"))) true)
      [("alice", "Signed by Bob.")] ⟨"alice", "Who signed?", false⟩).effects
      = [{ url := "https://openrouter.ai/api/v1/chat/completions"
           method := "POST"
           authorization := "Bearer sk-test"
           referer := "https://github.com/whatsapp-bot"
           title := "WhatsApp AI Bot"
           contentType := "application/json"
           model := "deepseek/deepseek-r1:free"
           role := "user"
           content := .text
             "Context from PDF:\nSigned by Bob.\n\nQuestion: Who signed?\nPlease answer based on the context provided."
           temperature := 7 / 10
           top_p := 1
           repetition_penalty := 1 }] :=
  ⟨by decide, by
    obtain ⟨prompt, hfetch, htemplate, _⟩ := C4_text_prompt
      (sampleWorld none (.ok "") (.ok (okResponse (sampleJson "an answer"))) true)
      [("alice", "Signed by Bob.")] ⟨"alice", "Who signed?", false⟩ (by decide) rfl
    rw [htemplate "Signed by Bob." rfl (by decide)] at hfetch
    exact hfetch⟩

/-- C6 (as stated, refuted): two answers with status 429 and different bodies make
both completion functions fail with one and the same error, whose message names the
status only: the error does not carry the response body. -/
theorem C6_body_not_carried_counterexample :
    (processTextWithAI (sampleWorld none (.ok "")
        (.ok (statusResponse 429 "quota exceeded")) true) "hi" none).result
      = .error ⟨"OpenRouter API responded with status 429"⟩ ∧
    (processTextWithAI (sampleWorld none (.ok "")
        (.ok (statusResponse 429 "model overloaded")) true) "hi" none).result
      = .error ⟨"OpenRouter API responded with status 429"⟩ ∧
    (processImageWithAI (sampleWorld none (.ok "")
        (.ok (statusResponse 429 "quota exceeded")) true) "iVBORw0KGgo=" "").result
      = .error ⟨"OpenRouter Vision API responded with status 429"⟩ ∧
    (processImageWithAI (sampleWorld none (.ok "")
        (.ok (statusResponse 429 "model overloaded")) true) "iVBORw0KGgo=" "").result
      = .error ⟨"OpenRouter Vision API responded with status 429"⟩ ∧
    "quota exceeded" ≠ "model overloaded" :=
  ⟨rfl, rfl, rfl, rfl, by decide⟩

/-- C6 (amended): when the completion endpoint answers a call of `processTextWithAI` or
`processImageWithAI` with a non-success response of status `s` and body text `b`, the
call fails with the error whose message is `'OpenRouter API responded with status '`
(resp. `'OpenRouter Vision API responded with status '`) followed by `s`: the error
carries the status; the body `b` is written to the error log and is not part of the
error. -/
theorem C6_status_error (w : World) (response : Response) (b : String)
    (hok : response.ok = false) (htext : response.text = .ok b) :
    (∀ text context,
      w.fetch (completionRequest w.OPENROUTER_API_KEY (.text (textPrompt text context)))
        = .ok response →
      (processTextWithAI w text context).result
        = .error ⟨"OpenRouter API responded with status " ++ toString response.status⟩ ∧
      (processTextWithAI w text context).effects
        = [.fetch (completionRequest w.OPENROUTER_API_KEY
              (.text (textPrompt text context))),
            .consoleError "OpenRouter API Error:" b,
            .consoleError "Error processing with OpenRouter:"
              ("OpenRouter API responded with status " ++ toString response.status)]) ∧
    (∀ imageBase64 caption,
      w.fetch (completionRequest w.OPENROUTER_API_KEY
          (.parts (imageText caption) ("data:image/jpeg;base64," ++ imageBase64)))
        = .ok response →
      (processImageWithAI w imageBase64 caption).result
        = .error ⟨"OpenRouter Vision API responded with status "
            ++ toString response.status⟩ ∧
      (processImageWithAI w imageBase64 caption).effects
        = [.fetch (completionRequest w.OPENROUTER_API_KEY
              (.parts (imageText caption) ("data:image/jpeg;base64," ++ imageBase64))),
            .consoleError "OpenRouter Vision API Error:" b,
            .consoleError "Error processing image with OpenRouter:"
              ("OpenRouter Vision API responded with status "
                ++ toString response.status)]) := by
  constructor
  · intro text context hfetch
    simp [processTextWithAI, logAndRethrow, callCompletion, hfetch, hok, htext]
  · intro imageBase64 caption hfetch
    simp [processImageWithAI, logAndRethrow, callCompletion, hfetch, hok, htext]

/-- C6 (amended), at a text completion refused with status 429. -/
theorem C6_status_error_witness :
    (statusResponse 429 "quota exceeded").ok = false ∧
    (statusResponse 429 "quota exceeded").text = .ok "quota exceeded" ∧
    (processTextWithAI (sampleWorld none (.ok "")
        (.ok (statusResponse 429 "quota exceeded")) true) "hi" none).result
      = .error ⟨"OpenRouter API responded with status " ++ toString 429⟩ :=
  ⟨rfl, rfl,
    ((C6_status_error
      (sampleWorld none (.ok "") (.ok (statusResponse 429 "quota exceeded")) true)
      (statusResponse 429 "quota exceeded") "quota exceeded" rfl rfl).1
        "hi" none rfl).1⟩

/-- Whenever the response-shape check lets a value through, that value is what the
`content` property of the first choice's `message` reads as. -/
theorem readCompletion_ok (data v : JsValue) (invalid : String)
    (h : readCompletion data invalid = .ok v) :
    ∃ choices first message,
      data.getField "choices" = .ok choices ∧ choices.getIndex0 = .ok first ∧
      first.getField "message" = .ok message ∧ message.truthy = true ∧
      message.getField "content" = .ok v := by
  unfold readCompletion at h
  cases h1 : data.getField "choices" with
  | error e => simp [h1] at h
  | ok choices =>
    cases t1 : choices.truthy with
    | false => simp [h1, t1] at h
    | true =>
      cases h2 : choices.getIndex0 with
      | error e => simp [h1, t1, h2] at h
      | ok first =>
        cases t2 : first.truthy with
        | false => simp [h1, t1, h2, t2] at h
        | true =>
          cases h3 : first.getField "message" with
          | error e => simp [h1, t1, h2, t2, h3] at h
          | ok message =>
            cases t3 : message.truthy with
            | false => simp [h1, t1, h2, t2, h3, t3] at h
            | true =>
              simp only [h1, t1, h2, t2, h3, t3] at h
              exact ⟨choices, first, message, rfl, h2, h3, t3, by simpa using h⟩

/-- C7 (the code at the failing input): for the success-status response body
`{"choices": [{"message": {}}]}`, whose message has no content, both completion
functions return `undefined` instead of failing, and the handler passes `undefined` to
`message.reply`. -/
theorem C7_missing_content_is_returned :
    (processTextWithAI (sampleWorld none (.ok "")
        (.ok (okResponse (.obj [("choices", .arr [.obj [("message", .obj [])]])]))) true)
      "hi" none).result = .ok .undefined ∧
    (processImageWithAI (sampleWorld none (.ok "")
        (.ok (okResponse (.obj [("choices", .arr [.obj [("message", .obj [])]])]))) true)
      "iVBORw0KGgo=" "").result = .ok .undefined ∧
    replyCalls (onMessage (sampleWorld none (.ok "")
        (.ok (okResponse (.obj [("choices", .arr [.obj [("message", .obj [])]])]))) true)
      [] ⟨"alice", "hi", false⟩).effects = [.undefined] ∧
    (processTextWithAI (sampleWorld none (.ok "")
        (.ok (okResponse (.obj [("choices", .arr [.obj []])]))) true)
      "hi" none).result = .error ⟨"Invalid response from OpenRouter API"⟩ :=
  ⟨rfl, rfl, rfl, rfl⟩

/-- An uninterrupted run of the message handler, resumed step by step, leaves the map
that `onMessage` computes. -/
theorem onMessage_pdfContexts_uninterrupted (w : World) (st : Store) (message : Message) :
    (onMessage w st message).pdfContexts
      = match startMessage w message with
        | none => st
        | some task =>
          match resumeTask st task with
          | (st1, none) => st1
          | (st1, some next) => (resumeTask st1 next).1 := by
  cases hbody : startsWith message.body "!" with
  | true => simp [onMessage, startMessage, hbody]
  | false =>
    rw [onMessage_pdfContexts w st message hbody]
    unfold computeResponse startMessage
    cases hm : message.hasMedia with
    | false => simp [hbody]
    | true =>
      simp only [hbody, Bool.false_eq_true, if_false, if_true, resumeTask]
      cases hd : w.downloadMedia with
      | error e => simp
      | ok o =>
        cases o with
        | none => simp
        | some media =>
          by_cases hp : media.mimetype = "application/pdf"
          · simp only [hp, if_true, resumeTask, extractTextFromPDF]
            cases hx : w.pdf (w.bufferFrom media.data) <;> simp
          · by_cases hi : startsWith media.mimetype "image/" = true <;> simp [hp, hi]

/-- With no run suspended, the settling of promises changes nothing. -/
theorem deliverAll_resume_of_idle (s : BotState) (hs : s.suspended = [])
    (settled : List Nat) :
    deliverAll s (settled.map .resume) = s := by
  induction settled with
  | nil => rfl
  | cons i rest ih =>
    have h1 : deliver s (.resume i) = s := by simp [deliver, hs]
    simp only [deliverAll, List.map_cons, List.foldl_cons, h1]
    exact ih

/-- C10 (as stated, refuted): a conversation has a stored document; a second upload of
it is suspended at the PDF parser when the `disconnected` event clears the map; the
parser then finishes and the run stores its text, so the following question of that
conversation is sent with document context. -/
theorem C10_upload_in_flight_counterexample :
    (deliverAll BotState.initial
      [.message (sampleWorld (some ⟨"application/pdf", "JVBERi0="⟩) (.ok "Old terms.")
          (.ok (okResponse (sampleJson "an answer"))) true) ⟨"alice", "", true⟩,
        .resume 0, .resume 0]).pdfContexts = [("alice", "Old terms.")] ∧
    (deliverAll BotState.initial
      [.message (sampleWorld (some ⟨"application/pdf", "JVBERi0="⟩) (.ok "Old terms.")
          (.ok (okResponse (sampleJson "an answer"))) true) ⟨"alice", "", true⟩,
        .resume 0, .resume 0,
        .message (sampleWorld (some ⟨"application/pdf", "JVBERi0="⟩) (.ok "Signed by Bob.")
          (.ok (okResponse (sampleJson "an answer"))) true) ⟨"alice", "", true⟩,
        .resume 0, .disconnected "NAVIGATION"]).pdfContexts = [] ∧
    (deliverAll BotState.initial
      [.message (sampleWorld (some ⟨"application/pdf", "JVBERi0="⟩) (.ok "Old terms.")
          (.ok (okResponse (sampleJson "an answer"))) true) ⟨"alice", "", true⟩,
        .resume 0, .resume 0,
        .message (sampleWorld (some ⟨"application/pdf", "JVBERi0="⟩) (.ok "Signed by Bob.")
          (.ok (okResponse (sampleJson "an answer"))) true) ⟨"alice", "", true⟩,
        .resume 0, .disconnected "NAVIGATION", .resume 0]).pdfContexts
      = [("alice", "Signed by Bob.")] ∧
    fetchCalls (onMessage
        (sampleWorld none (.ok "") (.ok (okResponse (sampleJson "an answer"))) true)
        (deliverAll BotState.initial
          [.message (sampleWorld (some ⟨"application/pdf", "JVBERi0="⟩) (.ok "Old terms.")
              (.ok (okResponse (sampleJson "an answer"))) true) ⟨"alice", "", true⟩,
            .resume 0, .resume 0,
            .message (sampleWorld (some ⟨"application/pdf", "JVBERi0="⟩)
              (.ok "Signed by Bob.") (.ok (okResponse (sampleJson "an answer"))) true)
              ⟨"alice", "", true⟩,
            .resume 0, .disconnected "NAVIGATION", .resume 0]).pdfContexts
        ⟨"alice", "Who signed?", false⟩).effects
      = [{ url := "https://openrouter.ai/api/v1/chat/completions"
           method := "POST"
           authorization := "Bearer sk-test"
           referer := "https://github.com/whatsapp-bot"
           title := "WhatsApp AI Bot"
           contentType := "application/json"
           model := "deepseek/deepseek-r1:free"
           role := "user"
           content := .text
             "Context from PDF:\nSigned by Bob.\n\nQuestion: Who signed?\nPlease answer based on the context provided."
           temperature := 7 / 10
           top_p := 1
           repetition_penalty := 1 }] :=
  ⟨rfl, rfl, rfl, rfl⟩

/-- C10 (amended): whatever interleaving of events built the map, right after a
`disconnected` event the map is empty and no conversation has a document text; a
non-ignored text message handled in that state, from any conversation, is sent to the
completion endpoint as the raw body; and when no upload is in flight at the disconnect,
both stay so whichever promises settle afterwards. -/
theorem C10_disconnect_clears_contexts (events : List ClientEvent) (reason : String)
    (w : World) (message : Message)
    (hbody : startsWith message.body "!" = false)
    (hmedia : message.hasMedia = false) :
    (deliverAll BotState.initial (events ++ [.disconnected reason])).pdfContexts
      = Store.empty ∧
    (∀ conversation,
      (deliverAll BotState.initial (events ++ [.disconnected reason])).pdfContexts.get
        conversation = none) ∧
    fetchCalls (onMessage w
        (deliverAll BotState.initial (events ++ [.disconnected reason])).pdfContexts
        message).effects
      = [{ url := "https://openrouter.ai/api/v1/chat/completions"
           method := "POST"
           authorization := "Bearer " ++ w.OPENROUTER_API_KEY
           referer := "https://github.com/whatsapp-bot"
           title := "WhatsApp AI Bot"
           contentType := "application/json"
           model := "deepseek/deepseek-r1:free"
           role := "user"
           content := .text message.body
           temperature := 7 / 10
           top_p := 1
           repetition_penalty := 1 }] ∧
    ((deliverAll BotState.initial (events ++ [.disconnected reason])).suspended = [] →
      ∀ settled : List Nat,
        (deliverAll BotState.initial
          (events ++ [.disconnected reason] ++ settled.map .resume)).pdfContexts
          = Store.empty ∧
        fetchCalls (onMessage w
            (deliverAll BotState.initial
              (events ++ [.disconnected reason] ++ settled.map .resume)).pdfContexts
            message).effects
          = [{ url := "https://openrouter.ai/api/v1/chat/completions"
               method := "POST"
               authorization := "Bearer " ++ w.OPENROUTER_API_KEY
               referer := "https://github.com/whatsapp-bot"
               title := "WhatsApp AI Bot"
               contentType := "application/json"
               model := "deepseek/deepseek-r1:free"
               role := "user"
               content := .text message.body
               temperature := 7 / 10
               top_p := 1
               repetition_penalty := 1 }]) := by
  have hclear : (deliverAll BotState.initial (events ++ [.disconnected reason])).pdfContexts
      = Store.empty := by
    simp [deliverAll, deliver, onDisconnected, Store.clear, Store.empty]
  have hraw : fetchCalls (onMessage w Store.empty message).effects
      = [completionRequest w.OPENROUTER_API_KEY (.text message.body)] := by
    rw [(onMessage_calls w Store.empty message hbody).1]
    simp [computeResponse, hmedia, fetchCalls, processTextWithAI, textPrompt, Store.empty,
      Store.get]
  refine ⟨hclear, ?_, ?_, ?_⟩
  · intro conversation
    rw [hclear]; rfl
  · rw [hclear]; exact hraw
  · intro hidle settled
    have hsame : deliverAll BotState.initial
        (events ++ [.disconnected reason] ++ settled.map .resume)
        = deliverAll BotState.initial (events ++ [.disconnected reason]) := by
      have := deliverAll_resume_of_idle _ hidle settled
      simpa [deliverAll, List.foldl_append] using this
    rw [hsame, hclear]
    exact ⟨rfl, hraw⟩

/-- C10 (amended), at a finished document upload followed by a disconnect and a
question. -/
theorem C10_disconnect_clears_contexts_witness :
    (deliverAll BotState.initial
      [.message (sampleWorld (some ⟨"application/pdf", "JVBERi0="⟩) (.ok "Signed by Bob.")
        (.ok (okResponse (sampleJson "an answer"))) true) ⟨"alice", "", true⟩,
        .resume 0, .resume 0]).pdfContexts = [("alice", "Signed by Bob.")] ∧
    startsWith (Message.mk "alice" "Who signed?" false).body "!" = false ∧
    fetchCalls (onMessage
        (sampleWorld none (.ok "") (.ok (okResponse (sampleJson "an answer"))) true)
        (deliverAll BotState.initial
          ([.message (sampleWorld (some ⟨"application/pdf", "JVBERi0="⟩)
            (.ok "Signed by Bob.") (.ok (okResponse (sampleJson "an answer"))) true)
            ⟨"alice", "", true⟩, .resume 0, .resume 0]
            ++ [.disconnected "NAVIGATION"])).pdfContexts
        ⟨"alice", "Who signed?", false⟩).effects
      = [{ url := "https://openrouter.ai/api/v1/chat/completions"
           method := "POST"
           authorization := "Bearer sk-test"
           referer := "https://github.com/whatsapp-bot"
           title := "WhatsApp AI Bot"
           contentType := "application/json"
           model := "deepseek/deepseek-r1:free"
           role := "user"
           content := .text "Who signed?"
           temperature := 7 / 10
           top_p := 1
           repetition_penalty := 1 }] :=
  ⟨rfl, by decide,
    (C10_disconnect_clears_contexts
      [.message (sampleWorld (some ⟨"application/pdf", "JVBERi0="⟩) (.ok "Signed by Bob.")
        (.ok (okResponse (sampleJson "an answer"))) true) ⟨"alice", "", true⟩,
        .resume 0, .resume 0]
      "NAVIGATION"
      (sampleWorld none (.ok "") (.ok (okResponse (sampleJson "an answer"))) true)
      ⟨"alice", "Who signed?", false⟩ (by decide) rfl).2.2.1⟩

end WhatsappBot
